import Mathlib

/-!
Verification of the MXNetEdge/mxnet-infrastructure webhook bots (Label Bot
and CI Bot).  The Python sources `LabelBot.py` and `CIBot.py` are shallowly
embedded below: pure string manipulation is translated to Lean functions on
`String`/`List Char` that mirror Python string-method semantics (`find`,
`rfind`, slicing with negative indices, `split`, `replace`, `strip`,
`lower`), and the stateful webhook flows become functions from explicit
inputs (headers, payload, external-collaborator functions) to a list of
reified side effects plus an outcome.  External collaborators that are not
code of this repository (the `hmac`/`hashlib` digest, the GitHub/Jenkins
HTTP clients, `json.loads`) are passed in as function parameters.
-/

/-! ### Python string primitives

Each helper mirrors the semantics of the corresponding Python `str` method;
they are written as structural recursions on `List Char` so that every
definition evaluates inside the kernel. -/

/-- Model of Python list/str prefix test used by `find`/`replace`:
`isPrefixList p l` is true when `p` is a prefix of `l`. -/
def isPrefixList : List Char → List Char → Bool
  | [], _ => true
  | _ :: _, [] => false
  | a :: as, b :: bs => a == b && isPrefixList as bs

/-- Helper for `pyFind`: first index at or after `i` where `pat` occurs. -/
def pyFindAux (pat : List Char) : List Char → Nat → Option Nat
  | [], i => if isPrefixList pat [] then some i else none
  | c :: cs, i =>
    if isPrefixList pat (c :: cs) then some i else pyFindAux pat cs (i + 1)

/-- Model of Python `s.find(sub)`: index of the first occurrence of `sub`
in `s`, or `-1` when there is none. -/
def pyFind (s sub : String) : Int :=
  match pyFindAux sub.toList s.toList 0 with
  | some i => (i : Int)
  | none => -1

/-- Helper for `pyRfind`: index of the last occurrence, scanning left to
right and keeping the latest match. -/
def pyRfindAux (pat : List Char) : List Char → Nat → Option Nat → Option Nat
  | [], i, best => if isPrefixList pat [] then some i else best
  | c :: cs, i, best =>
    pyRfindAux pat cs (i + 1)
      (if isPrefixList pat (c :: cs) then some i else best)

/-- Model of Python `s.rfind(sub)`: index of the last occurrence of `sub`
in `s`, or `-1` when there is none. -/
def pyRfind (s sub : String) : Int :=
  match pyRfindAux sub.toList s.toList 0 none with
  | some i => (i : Int)
  | none => -1

/-- Model of Python `sub in s` (substring containment). -/
def pyContains (s sub : String) : Bool :=
  pyFind s sub != -1

/-- Model of Python slicing `s[a:b]` including negative-index and
out-of-range clamping semantics. -/
def pySlice (s : String) (a b : Int) : String :=
  let n : Int := (s.length : Int)
  let lo : Nat := (if a < 0 then max (n + a) 0 else min a n).toNat
  let hi : Nat := (if b < 0 then max (n + b) 0 else min b n).toNat
  String.mk ((s.toList.take hi).drop lo)

/-- Helper for `pyReplace`: replace occurrences of `pat` by `rep` left to
right without overlap; `fuel` bounds the recursion (one unit per consumed
character, so the length of the subject list always suffices). -/
def replaceFuel (pat rep : List Char) : Nat → List Char → List Char
  | _, [] => []
  | 0, l => l
  | n + 1, c :: cs =>
    if isPrefixList pat (c :: cs) && !pat.isEmpty then
      rep ++ replaceFuel pat rep n (List.drop (pat.length - 1) cs)
    else
      c :: replaceFuel pat rep n cs

/-- Model of Python `s.replace(pat, rep)` for a non-empty pattern (every
pattern used by the bots is non-empty; an empty pattern leaves `s`
unchanged here). -/
def pyReplace (s pat rep : String) : String :=
  String.mk (replaceFuel pat.toList rep.toList s.length s.toList)

/-- Helper for `collapseWS`: Python `s.split()` — split on runs of
whitespace, dropping empty fields. -/
def splitWSAux : List Char → List Char → List String
  | [], acc => if acc.isEmpty then [] else [String.mk acc.reverse]
  | c :: cs, acc =>
    if c.isWhitespace then
      if acc.isEmpty then splitWSAux cs []
      else String.mk acc.reverse :: splitWSAux cs []
    else splitWSAux cs (c :: acc)

/-- Helper: Python `' '.join(parts)`. -/
def joinSpace : List String → String
  | [] => ""
  | [x] => x
  | x :: xs => x ++ " " ++ joinSpace xs

/-- Model of the Python idiom `' '.join(s.split())`: collapse every run of
internal whitespace to a single space and strip the ends. -/
def collapseWS (s : String) : String :=
  joinSpace (splitWSAux s.toList [])

/-- Helper for `pySplitChar`: Python `s.split(sep)` with a one-character
separator — keeps empty fields and always yields at least one field. -/
def pySplitCharAux (sep : Char) : List Char → List Char → List String
  | [], acc => [String.mk acc.reverse]
  | c :: cs, acc =>
    if c == sep then String.mk acc.reverse :: pySplitCharAux sep cs []
    else pySplitCharAux sep cs (c :: acc)

/-- Model of Python `s.split(sep)` for a one-character separator. -/
def pySplitChar (sep : Char) (s : String) : List String :=
  pySplitCharAux sep s.toList []

/-- Model of Python `s.lower()` (ASCII case folding, which is all the bots
use). -/
def pyLower (s : String) : String :=
  String.mk (s.toList.map Char.toLower)

/-- Helper for `pyStrip`: drop leading whitespace characters. -/
def dropLeadingWS : List Char → List Char
  | [] => []
  | c :: cs => if c.isWhitespace then dropLeadingWS cs else c :: cs

/-- Model of Python `s.strip()`: remove leading and trailing whitespace. -/
def pyStrip (s : String) : String :=
  String.mk ((dropLeadingWS ((dropLeadingWS s.toList).reverse)).reverse)

/-! ### Tokenizers

`LabelBot.tokenize` (LabelBot.py lines 68-76) and
`CIBot._parse_jobs_from_comment` (CIBot.py lines 182-186). -/

/-- Embedding of `LabelBot.tokenize`: take the substring between the first
`[` and the last `]`, split on commas, and collapse internal whitespace of
each field.  Note the source does NOT lower-case here. -/
def tokenize (string : String) : List String :=
  let substring := pySlice string (pyFind string "[" + 1) (pyRfind string "]")
  (pySplitChar ',' substring).map (fun label => collapseWS label)

/-- Embedding of `CIBot._parse_jobs_from_comment`: same bracket-and-comma
tokenization as `tokenize`, but each field is additionally lower-cased. -/
def parse_jobs_from_comment (string : String) : List String :=
  let substring := pySlice string (pyFind string "[" + 1) (pyRfind string "]")
  (pySplitChar ',' substring).map (fun label => pyLower (collapseWS label))

deriving instance DecidableEq for Except

/-! ### Data model

The fields of the GitHub `issue_comment` payload that the bots read
(CIBot.py lines 213-218, 243, 282; LabelBot.py lines 244-252). -/

/-- Parsed JSON body of an `issue_comment` webhook: exactly the fields the
bots access.  `action` is optional because `CIBot.parse_webhook_data`
guards its read with `if "action" in payload`. -/
structure Payload where
  action : Option String
  comment_body : String
  comment_author : String
  issue_number : Nat
  issue_author : String
deriving DecidableEq

/-! ### Signature Validator

`CIBot._secure_webhook` (CIBot.py lines 75-96).  The `hmac`/`hashlib`
digest is an external library, passed in as a function from (secret, body)
to the hex digest; `hmac.compare_digest` is a constant-time string
equality, modelled as `==`. -/

/-- Embedding of `CIBot._secure_webhook`: raises (returns `.error`) when
the `X-Hub-Signature` header is absent, otherwise strips every `sha1=`
occurrence from the provided signature and compares it with the freshly
computed digest of the body keyed by the webhook secret. -/
def secure_webhook (hmacSha1 : String → String → String) (webhook_secret : String)
    (headers : List (String × String)) (body : String) : Except String Bool :=
  match headers.lookup "X-Hub-Signature" with
  | none => .error "WebHook from GitHub is not signed"
  | some git_signed =>
    let git_signed := pyReplace git_signed "sha1=" ""
    let secret_sign := hmacSha1 webhook_secret body
    .ok (git_signed == secret_sign)

/-! ### CI Bot: jobs, validity gate, executor

`CIBot._find_all_jobs` (lines 98-105), `CIBot._trigger_job` (111-129),
`CIBot._trigger_ci` (134-157), `CIBot._is_authorized` (171-180), and the
job-validity portion of `CIBot.parse_webhook_data` (266-278). -/

/-- Embedding of `CIBot._find_all_jobs`: the hard-coded list of CI jobs. -/
def find_all_jobs : List String :=
  ["clang", "edge", "centos-cpu", "centos-gpu", "windows-cpu", "windows-gpu",
   "miscellaneous", "unix-cpu", "unix-gpu", "website", "sanity"]

/-- Outcome of the external Jenkins invocation for one job: the job
invokes normally, or `jenkins_obj[name]` raises `UnknownJob`, or some
other exception is raised. -/
inductive JobInvokeOutcome where
  | invoked
  | unknownJob
  | failure
deriving DecidableEq

/-- Embedding of `CIBot._trigger_job`: a normal invocation returns `True`;
an `UnknownJob` lookup failure posts a multibranch rescan request and
still returns `True`; any other exception is re-raised. -/
def trigger_job (outcome : JobInvokeOutcome) : Except String Bool :=
  match outcome with
  | .invoked => .ok true
  | .unknownJob => .ok true
  | .failure => .error "Unable to invoke job"

/-- Embedding of `CIBot._trigger_ci`: iterate over the jobs, collecting
those for which `_trigger_job` returned `True`; the whole loop runs inside
one `try`, so the first exception aborts the batch and is re-raised as
`Jenkins unable to trigger`. -/
def trigger_ci (outcome : String → JobInvokeOutcome) : List String → Except String (List String)
  | [] => .ok []
  | job :: rest =>
    match trigger_job (outcome job) with
    | .error _ => .error "Jenkins unable to trigger"
    | .ok b =>
      match trigger_ci outcome rest with
      | .error e => .error e
      | .ok succ => .ok (if b then job :: succ else succ)

/-- Embedding of `CIBot._is_authorized`: the external committer-team
membership lookup is a function parameter; access is granted when the
lookup succeeds or the comment author is the PR author. -/
def is_authorized (committer : String → Bool) (comment_author pr_author : String) : Bool :=
  if committer comment_author || comment_author == pr_author then true else false

/-- Structured form of the comment messages `CIBot.parse_webhook_data`
posts via `create_comment`; each constructor carries the data the
corresponding Python message string interpolates. -/
inductive CIMessage where
  /-- The help message for an undefined action, which lists the valid
  syntax examples `run ci [all]` and `run ci [job1, job2]`. -/
  | undefinedAction
  /-- The rejection naming the jobs entered by the user and the jobs
  supported by CI. -/
  | unsupportedJobs (entered : List String) (supported : List String)
  /-- The success message naming the jobs successfully triggered. -/
  | ciTriggered (successful : List String)
  /-- Authorized user recognized, but no job could be triggered. -/
  | unableToTriggerCI
  /-- The unauthorized-access message naming the three permitted
  categories. -/
  | unauthorized
deriving DecidableEq

/-- Embedding of the job-validity gate of `CIBot.parse_webhook_data`
(lines 266-278): `["all"]` expands to the whole job set, anything else is
intersected with it (`list(set(user_jobs).intersection(set(all_jobs)))`
modelled as deduplication plus membership filtering), and an empty result
is a hard rejection whose message carries both sets. -/
def ci_valid_jobs (user_jobs all_jobs : List String) : Except CIMessage (List String) :=
  let valid_jobs :=
    if user_jobs = ["all"] then all_jobs
    else (user_jobs.dedup).filter (fun j => all_jobs.contains j)
  if valid_jobs.isEmpty then .error (.unsupportedJobs user_jobs.dedup all_jobs)
  else .ok valid_jobs

example : ci_valid_jobs ["typo-job"] ["clang", "centos-cpu"]
    = .error (.unsupportedJobs ["typo-job"] ["clang", "centos-cpu"]) := by decide
example : ci_valid_jobs ["all"] ["a", "b", "c"] = .ok ["a", "b", "c"] := by decide
example : trigger_ci (fun j => if j = "clang" then .failure else .invoked) ["clang", "edge"]
    = .error "Jenkins unable to trigger" := by decide

/-! ### Label Bot: label formatting and CRUD operations

`LabelBot.format_labels` (LabelBot.py lines 113-124),
`LabelBot.add_github_labels` / `remove_github_labels` /
`update_github_labels` (126-189), `LabelBot.label_action` (210-220).
The GitHub HTTP calls are external; their success is the `httpOk`
parameter and the requests themselves are reified as `LabelEffect`s. -/

/-- Side effects of one Label Bot run: the label-list fetch
(`find_all_labels`), the add/remove/update HTTP requests, and a posted
comment (`add_comment` — defined in the source but never reached from
`parse_webhook_data`). -/
inductive LabelEffect where
  | fetchLabels
  | addLabels (issue : Nat) (labels : List String)
  | removeLabel (issue : Nat) (label : String)
  | updateLabels (issue : Nat) (labels : List String)
  | postedComment (issue : Nat) (message : String)
deriving DecidableEq

/-- Embedding of `LabelBot.format_labels`: asserts that the known label
set was fetched and is non-empty, collapses duplicated spaces in each
requested label, and keeps exactly the labels whose lower-case form is in
the known set (the kept labels retain their original case). -/
def format_labels (all_labels : List String) (labels : List String) :
    Except String (List String) :=
  if all_labels.isEmpty then .error "Find all labels first"
  else
    let labels := labels.map collapseWS
    .ok (labels.filter (fun label => all_labels.contains (pyLower label)))

/-- Embedding of `LabelBot.add_github_labels`: format the labels, POST
them, and report success or failure depending on the HTTP status. -/
def add_github_labels (all_labels : List String) (httpOk : Bool)
    (issue_num : Nat) (labels : List String) :
    Except String (List LabelEffect × String) :=
  match format_labels all_labels labels with
  | .error e => .error e
  | .ok formatted =>
    if httpOk then .ok ([.addLabels issue_num formatted], "Added labels successfully")
    else .ok ([.addLabels issue_num formatted], "Failed to add labels")

/-- Embedding of `LabelBot.remove_github_labels`: format the labels and
DELETE them one by one, stopping at the first failed request. -/
def remove_github_labels (all_labels : List String) (httpOk : Bool)
    (issue_num : Nat) (labels : List String) :
    Except String (List LabelEffect × String) :=
  match format_labels all_labels labels with
  | .error e => .error e
  | .ok formatted =>
    if httpOk then
      .ok (formatted.map (fun l => .removeLabel issue_num l), "Removed labels successfully")
    else
      match formatted with
      | [] => .ok ([], "Removed labels successfully")
      | l :: _ => .ok ([.removeLabel issue_num l], "Failed to remove labels")

/-- Embedding of `LabelBot.update_github_labels`: format the labels, PUT
them, and report success or failure depending on the HTTP status. -/
def update_github_labels (all_labels : List String) (httpOk : Bool)
    (issue_num : Nat) (labels : List String) :
    Except String (List LabelEffect × String) :=
  match format_labels all_labels labels with
  | .error e => .error e
  | .ok formatted =>
    if httpOk then .ok ([.updateLabels issue_num formatted], "Updated labels successfully")
    else .ok ([.updateLabels issue_num formatted], "Failed to update labels")

/-- Embedding of `LabelBot.label_action`: the `actions` dict built by
`parse_webhook_data` has the single key `action`, so the `in` tests
dispatch on string equality; an unmatched action returns the
unrecognized-format string without posting anything. -/
def label_action (all_labels : List String) (httpOk : Bool)
    (action : String) (issue_num : Nat) (labels : List String) :
    Except String (List LabelEffect × String) :=
  if action = "add" then add_github_labels all_labels httpOk issue_num labels
  else if action = "remove" then remove_github_labels all_labels httpOk issue_num labels
  else if action = "update" then update_github_labels all_labels httpOk issue_num labels
  else .ok ([], "Unrecognized action format for the mxnet-label-bot")

/-- Embedding of the action extraction in `LabelBot.parse_webhook_data`
(line 251): `payload["comment"]["body"].split(" ")[1]` — the second
space-separated token of the whole comment body; `none` models the
`IndexError` when the body has no second token. -/
def label_action_of_body (body : String) : Option String :=
  (pySplitChar ' ' body).get? 1

/-- Embedding of `LabelBot.parse_webhook_data` (LabelBot.py lines
222-259): unwrap the envelope, require an `issue_comment` event and a
comment body mentioning `@mxnet-label-bot`, tokenize the bracketed labels,
fetch the known labels (the fetched set is the `all_labels` parameter),
take the second space-separated token of the body as the action, and
dispatch through `label_action`.  The result is the list of side effects
plus the returned status string; `.error` models an uncaught Python
exception.  Note there is no signature check and no comparison of the
comment author against the bot identity in this flow. -/
def label_parse_webhook_data (all_labels : List String) (httpOk : Bool)
    (headers : List (String × String)) (parseJson : String → Option Payload)
    (rawBody : String) : Except String (List LabelEffect × String) :=
  match headers.lookup "X-GitHub-Event" with
  | none => .ok ([], "Not a GitHub Event")
  | some github_event =>
    match parseJson rawBody with
    | none => .ok ([], "Decoding JSON for payload failed")
    | some payload =>
      if github_event = "issue_comment" then
        if pyContains payload.comment_body "@mxnet-label-bot" then
          let labels := tokenize payload.comment_body
          if labels.isEmpty then .ok ([], "Unable to gather labels from issue comments")
          else
            match label_action_of_body payload.comment_body with
            | none => .error "IndexError"
            | some action =>
              match label_action all_labels httpOk action payload.issue_number labels with
              | .error e => .error e
              | .ok er => .ok (LabelEffect.fetchLabels :: er.1, er.2)
        else .ok ([], "Not a comment referencing the mxnet-label-bot for action")
      else .ok ([], "GitHub Event unsupported by Label Bot")

/-! ### CI Bot: command parsing and the full webhook flow

`CIBot.parse_webhook_data` (CIBot.py lines 188-304). -/

/-- Side effects of one CI Bot run: comments posted via `create_comment`
and Jenkins invocations attempted via `_trigger_ci`. -/
inductive CIEffect where
  | createComment (issue : Nat) (message : CIMessage)
  | triggerCI (jobs : List String) (issue : Nat)
deriving DecidableEq

/-- Embedding of the phrase extraction in `CIBot.parse_webhook_data`
(lines 232-237): slice the body from the mention to the first `]`, delete
the mention, and collapse whitespace. -/
def ciPhraseOf (bot_user body : String) : String :=
  let phrase := pySlice body (pyFind body ("@" ++ bot_user)) (pyFind body "]" + 1)
  collapseWS (pyReplace phrase ("@" ++ bot_user) "")

/-- Embedding of the action extraction in `CIBot.parse_webhook_data`
(line 240): the stripped text before the first `[` of the phrase. -/
def ciActionOf (bot_user body : String) : String :=
  let phrase := ciPhraseOf bot_user body
  pyStrip (pySlice phrase 0 (pyFind phrase "["))

/-- Configuration and external collaborators of the CI Bot: its GitHub
identity and webhook secret, the HMAC-SHA1 digest, the committer-team
membership lookup, the per-job Jenkins invocation outcome, and
`json.loads` on the forwarded body. -/
structure CIBotCfg where
  bot_user : String
  webhook_secret : String
  hmacSha1 : String → String → String
  committer : String → Bool
  outcome : String → JobInvokeOutcome
  parseJson : String → Option Payload

/-- Embedding of `CIBot.parse_webhook_data`: validate the signature,
decode the payload, ignore check-suite/check-run/status events, deleted
comments, and the comments of the bot itself, then for an `issue_comment`
mentioning the bot parse the action and jobs, gate them, check
authorization, trigger CI, and report.  The result is the list of side
effects plus `some message` when the Python code raises. -/
def ci_parse_webhook_data (cfg : CIBotCfg) (headers : List (String × String))
    (rawBody : String) : List CIEffect × Option String :=
  match headers.lookup "X-GitHub-Event" with
  | none => ([], some "Not a GitHub Event")
  | some github_event =>
    match secure_webhook cfg.hmacSha1 cfg.webhook_secret headers rawBody with
    | .error e => ([], some e)
    | .ok secured =>
      if secured = false then ([], some "Failed to validate WebHook security")
      else match cfg.parseJson rawBody with
      | none => ([], some "Decoding JSON for payload failed")
      | some payload =>
        if github_event = "check_suite" ∨ github_event = "check_run" ∨ github_event = "status" then
          ([], none)
        else if payload.action = some "deleted" then ([], none)
        else if payload.comment_author = cfg.bot_user then ([], none)
        else if github_event = "issue_comment" then
          if pyContains (pyLower payload.comment_body) ("@" ++ cfg.bot_user) then
            let action := ciActionOf cfg.bot_user payload.comment_body
            let issue_num := payload.issue_number
            if action ≠ "run ci" then
              ([.createComment issue_num .undefinedAction], some "Undefined action by user")
            else
              let user_jobs := parse_jobs_from_comment (ciPhraseOf cfg.bot_user payload.comment_body)
              if user_jobs.isEmpty then ([], some "No jobs found from PR comment")
              else if find_all_jobs.isEmpty then ([], some "Unable to gather jobs from the CI")
              else match ci_valid_jobs user_jobs find_all_jobs with
                | .error msg =>
                  ([.createComment issue_num msg],
                   some "Provided jobs do not match the ones supported by CI")
                | .ok valid_jobs =>
                  if is_authorized cfg.committer payload.comment_author payload.issue_author then
                    match trigger_ci cfg.outcome valid_jobs with
                    | .error e => ([.triggerCI valid_jobs issue_num], some e)
                    | .ok successful_jobs =>
                      if successful_jobs.isEmpty then
                        ([.triggerCI valid_jobs issue_num,
                          .createComment issue_num .unableToTriggerCI], none)
                      else
                        ([.triggerCI valid_jobs issue_num,
                          .createComment issue_num (.ciTriggered successful_jobs)], none)
                  else ([.createComment issue_num .unauthorized], none)
          else ([], none)
        else ([], none)

/-! ### Concrete inputs used by witnesses and counterexamples -/

/-- Header map of an `issue_comment` webhook as the Label Bot receives it
(the Label Bot flow performs no signature check). -/
def eventHeaders : List (String × String) := [("X-GitHub-Event", "issue_comment")]

/-- Header map of a signed `issue_comment` webhook; together with the
sample digest `fun k m => k ++ m`, secret `s` and raw body `body` the
signature `sha1=sbody` verifies. -/
def signedHeaders : List (String × String) :=
  [("X-GitHub-Event", "issue_comment"), ("X-Hub-Signature", "sha1=sbody")]

/-- Payload of a well-formed `add` command posted by the Label Bot account
itself (the account that posts as `@mxnet-label-bot`). -/
def labelSelfPayload : Payload :=
  { action := some "created", comment_body := "@mxnet-label-bot add [bug]",
    comment_author := "mxnet-label-bot", issue_number := 1, issue_author := "alice" }

/-- Payload of a comment addressing the Label Bot with the unrecognized
action token `foo`. -/
def labelFooPayload : Payload :=
  { action := some "created", comment_body := "@mxnet-label-bot foo [bug]",
    comment_author := "alice", issue_number := 2, issue_author := "bob" }

/-- Payload of a comment whose mention is preceded by the word `Please`,
so the mention is the second whitespace-separated token. -/
def labelPolitePayload : Payload :=
  { action := some "created", comment_body := "Please @mxnet-label-bot add [bug]",
    comment_author := "alice", issue_number := 4, issue_author := "alice" }

/-- Comment body in which the bot mention is the third whitespace token
and both the second token and the token after the mention are `add`. -/
def tangledBody : String := "x add @mxnet-label-bot add [bug]"

/-- CI Bot configuration whose own comment arrives: the payload author is
the bot identity itself. -/
def ciSelfCfg : CIBotCfg :=
  { bot_user := "mxnet-ci-bot", webhook_secret := "s",
    hmacSha1 := fun k m => k ++ m, committer := fun _ => false,
    outcome := fun _ => .invoked,
    parseJson := fun _ => some
      { action := some "created", comment_body := "@mxnet-ci-bot run ci [sanity]",
        comment_author := "mxnet-ci-bot", issue_number := 3, issue_author := "alice" } }

/-- Payload of a comment addressing the CI Bot with the unsupported action
token `run` (the only recognized action is `run ci`). -/
def ciRunPayload : Payload :=
  { action := some "created", comment_body := "@mxnet-ci-bot run [sanity]",
    comment_author := "alice", issue_number := 5, issue_author := "bob" }

/-- CI Bot configuration receiving `ciRunPayload`. -/
def ciRunCfg : CIBotCfg :=
  { bot_user := "mxnet-ci-bot", webhook_secret := "s",
    hmacSha1 := fun k m => k ++ m, committer := fun _ => false,
    outcome := fun _ => .invoked, parseJson := fun _ => some ciRunPayload }

/-- Jenkins outcome map in which exactly the job `clang` raises a
non-`UnknownJob` exception while every other job invokes normally. -/
def ciOutcomeOneFailing : String → JobInvokeOutcome :=
  fun j => if j = "clang" then .failure else .invoked

/-! ### Helper lemmas -/

/-- Python `split` on a one-character separator always yields at least one
field. -/
theorem pySplitCharAux_length_pos (sep : Char) (l acc : List Char) :
    0 < (pySplitCharAux sep l acc).length := by
  induction l generalizing acc with
  | nil => simp [pySplitCharAux]
  | cons c cs ih =>
    rw [pySplitCharAux]
    split
    · simp
    · exact ih _

/-- The Label Bot tokenizer always yields at least one field. -/
theorem tokenize_length_pos (s : String) : 0 < (tokenize s).length := by
  show 0 < ((pySplitChar ',' (pySlice s (pyFind s "[" + 1) (pyRfind s "]"))).map
    (fun label => collapseWS label)).length
  rw [List.length_map]
  exact pySplitCharAux_length_pos _ _ _

/-- The CI Bot tokenizer always yields at least one field. -/
theorem parse_jobs_length_pos (s : String) : 0 < (parse_jobs_from_comment s).length := by
  show 0 < ((pySplitChar ',' (pySlice s (pyFind s "[" + 1) (pyRfind s "]"))).map
    (fun label => pyLower (collapseWS label))).length
  rw [List.length_map]
  exact pySplitCharAux_length_pos _ _ _

/-- The Label Bot tokenizer never returns the empty list. -/
theorem tokenize_isEmpty_false (s : String) : (tokenize s).isEmpty = false := by
  have h := tokenize_length_pos s
  cases hm : tokenize s with
  | nil => rw [hm] at h; simp at h
  | cons x xs => rfl

/-! ### Claim theorems -/

/-- C1: signature validation.  `CIBot._secure_webhook` returns `True`
exactly when the provided `X-Hub-Signature` value with its `sha1=` tag
stripped equals the HMAC-SHA1 hex digest of the raw body keyed by the
shared secret, and raises (fails closed) exactly when the header map lacks
the signature header. -/
theorem secure_webhook_correct (hm : String → String → String) (secret : String)
    (headers : List (String × String)) (body : String) :
    (secure_webhook hm secret headers body = .ok true ↔
      ∃ sig, headers.lookup "X-Hub-Signature" = some sig ∧
        pyReplace sig "sha1=" "" = hm secret body) ∧
    (headers.lookup "X-Hub-Signature" = none ↔
      secure_webhook hm secret headers body = .error "WebHook from GitHub is not signed") := by
  unfold secure_webhook
  cases h : headers.lookup "X-Hub-Signature" with
  | none => simp
  | some sig => simp [beq_iff_eq]

/-- C4: authorization decision.  `CIBot._is_authorized` grants access
exactly when the comment author is the PR author or the committer lookup
returns true; the PR author is authorized whatever the lookup returns, and
a non-author who is not a committer is rejected. -/
theorem is_authorized_correct (committer : String → Bool) (ca pa : String) :
    (is_authorized committer ca pa = true ↔ ca = pa ∨ committer ca = true) ∧
    is_authorized committer ca ca = true ∧
    (ca ≠ pa → committer ca = false → is_authorized committer ca pa = false) := by
  cases hc : committer ca <;> by_cases he : ca = pa <;>
    simp [is_authorized, hc, he]

/-- C4 witness: with a lookup that always answers `false`, the author
matching the PR author is authorized and a distinct author is not. -/
theorem is_authorized_correct_witness :
    is_authorized (fun _ => false) "alice" "alice" = true ∧
    is_authorized (fun _ => false) "alice" "bob" = false :=
  ⟨(is_authorized_correct (fun _ => false) "alice" "alice").2.1,
   (is_authorized_correct (fun _ => false) "alice" "bob").2.2 (by decide) rfl⟩

/-- C6: tokenizer evaluation at the inputs of the spec and of
`test_labelbot.py`.  The CI Bot tokenizer collapses whitespace and folds
case as claimed, but `LabelBot.tokenize` preserves case — diverging from
the claim, from spec section 8 and from the expectations asserted by the
repository's own tests (`test_tokenize` .. `test_tokenize5`). -/
theorem tokenize_case_divergence :
    tokenize "[Sample Label]" = ["Sample Label"] ∧
    parse_jobs_from_comment "[Sample Label]" = ["sample label"] ∧
    tokenize "[sAMpLe LAbEl, another Label, fInal]"
      = ["sAMpLe LAbEl", "another Label", "fInal"] ∧
    parse_jobs_from_comment "[sAMpLe LAbEl, another Label, fInal]"
      = ["sample label", "another label", "final"] ∧
    tokenize "[MANY many wORds hERe, hello GOODbye ok]"
      = ["MANY many wORds hERe", "hello GOODbye ok"] ∧
    parse_jobs_from_comment "[MANY many wORds hERe, hello GOODbye ok]"
      = ["many many words here", "hello goodbye ok"] := by decide

/-- C8: `all` expansion.  For every non-empty known job set, the parsed
argument list `["all"]` makes the CI validity gate return the whole known
set, bypassing intersection filtering. -/
theorem ci_all_expansion (all_jobs : List String) (h : all_jobs ≠ []) :
    ci_valid_jobs ["all"] all_jobs = .ok all_jobs := by
  unfold ci_valid_jobs
  cases all_jobs with
  | nil => exact absurd rfl h
  | cons a l => simp

/-- C8 witness: the gate expands `["all"]` to the known set
`["a", "b", "c"]`. -/
theorem ci_all_expansion_witness :
    ci_valid_jobs ["all"] ["a", "b", "c"] = .ok ["a", "b", "c"] :=
  ci_all_expansion ["a", "b", "c"] (by decide)

/-- C9: for every input string both tokenizers return a non-empty list,
so the emptiness guards after tokenization (`if not labels` in
`LabelBot.parse_webhook_data`, `if not user_jobs` in
`CIBot.parse_webhook_data`) can never fire. -/
theorem tokenizers_never_empty (s : String) :
    0 < (tokenize s).length ∧ 0 < (parse_jobs_from_comment s).length :=
  ⟨tokenize_length_pos s, parse_jobs_length_pos s⟩

/-- C2: validity-gate asymmetry.  `LabelBot.format_labels` always
proceeds with the subset of requested labels whose lower-case form is in
the known set (and on `{bug, doc}` versus `{bug, typo}` that subset is
`{bug}`), while the CI job gate hard-rejects any non-`all` request whose
intersection with the known job set is empty, with a message carrying both
the requested and the supported sets. -/
theorem validity_gate_asymmetry (all_labels labels : List String) :
    (all_labels ≠ [] →
      ∃ kept, format_labels all_labels labels = .ok kept ∧
        (∀ x ∈ kept, pyLower x ∈ all_labels) ∧
        (∀ l ∈ labels, pyLower (collapseWS l) ∈ all_labels → collapseWS l ∈ kept)) ∧
    format_labels ["bug", "doc"] ["bug", "typo"] = .ok ["bug"] ∧
    (∀ user_jobs all_jobs : List String, user_jobs ≠ ["all"] →
      (∀ j ∈ user_jobs, j ∉ all_jobs) →
      ci_valid_jobs user_jobs all_jobs
        = .error (.unsupportedJobs user_jobs.dedup all_jobs)) := by
  refine ⟨?_, by decide, ?_⟩
  · intro hne
    cases all_labels with
    | nil => exact absurd rfl hne
    | cons a as =>
      refine ⟨(labels.map collapseWS).filter
        (fun label => (a :: as).contains (pyLower label)), rfl, ?_, ?_⟩
      · intro x hx
        have := List.of_mem_filter hx
        simpa using this
      · intro l hl hmem
        refine List.mem_filter.mpr ⟨List.mem_map_of_mem _ hl, ?_⟩
        simpa using hmem
  · intro user_jobs all_jobs hall hdisj
    unfold ci_valid_jobs
    rw [if_neg hall]
    have hnil : (user_jobs.dedup).filter (fun j => all_jobs.contains j) = [] := by
      rw [List.filter_eq_nil_iff]
      intro j hj
      have := hdisj j (List.mem_dedup.mp hj)
      simpa using this
    rw [hnil]
    rfl

/-- C2 witness: the label gate keeps `bug` and drops `typo` against known
set `{bug, doc}`; the CI gate hard-rejects `typo-job` against known set
`{clang, centos-cpu}` naming both sets. -/
theorem validity_gate_asymmetry_witness :
    (∃ kept, format_labels ["bug", "doc"] ["bug", "typo"] = .ok kept ∧
      (∀ x ∈ kept, pyLower x ∈ ["bug", "doc"]) ∧
      (∀ l ∈ ["bug", "typo"], pyLower (collapseWS l) ∈ ["bug", "doc"] →
        collapseWS l ∈ kept)) ∧
    ci_valid_jobs ["typo-job"] ["clang", "centos-cpu"]
      = .error (.unsupportedJobs ["typo-job"] ["clang", "centos-cpu"]) :=
  ⟨(validity_gate_asymmetry ["bug", "doc"] ["bug", "typo"]).1 (by decide),
   (validity_gate_asymmetry [] []).2.2 ["typo-job"] ["clang", "centos-cpu"]
     (by decide) (by decide)⟩

/-- C3 counterexample: with a Jenkins outcome map where `clang` fails with
a non-`UnknownJob` exception and `edge` invokes normally,
`CIBot._trigger_ci` raises `Jenkins unable to trigger` instead of
returning the aggregated list `["edge"]` — a per-item failure aborts the
whole batch, refuting the claim that the executor never raises for
per-item failures. -/
theorem trigger_ci_per_item_raises :
    ciOutcomeOneFailing "clang" = .failure ∧
    ciOutcomeOneFailing "edge" = .invoked ∧
    trigger_ci ciOutcomeOneFailing ["clang", "edge"]
      = .error "Jenkins unable to trigger" := by decide

/-- C3 amended: a job-lookup failure (`UnknownJob`) triggers a rescan and
is still counted among the successful triggers, so when no job hits a
non-`UnknownJob` exception the executor returns the whole job list; but
any other failure while invoking one job makes the executor raise the
systemic error `Jenkins unable to trigger`, abandoning the batch. -/
theorem trigger_ci_amended (outcome : String → JobInvokeOutcome) (jobs : List String) :
    ((∀ j ∈ jobs, outcome j ≠ .failure) → trigger_ci outcome jobs = .ok jobs) ∧
    ((∃ j ∈ jobs, outcome j = .failure) →
      trigger_ci outcome jobs = .error "Jenkins unable to trigger") := by
  induction jobs with
  | nil =>
    refine ⟨fun _ => rfl, ?_⟩
    rintro ⟨j, hj, _⟩
    cases hj
  | cons job rest ih =>
    constructor
    · intro h
      have hj := h job (List.mem_cons_self _ _)
      have hrest := ih.1 (fun j hjm => h j (List.mem_cons_of_mem _ hjm))
      cases ho : outcome job with
      | invoked => simp [trigger_ci, trigger_job, ho, hrest]
      | unknownJob => simp [trigger_ci, trigger_job, ho, hrest]
      | failure => exact absurd ho hj
    · rintro ⟨j, hj, hf⟩
      rcases List.mem_cons.mp hj with hje | hjr
      · rw [hje] at hf
        simp [trigger_ci, trigger_job, hf]
      · have hrest := ih.2 ⟨j, hjr, hf⟩
        cases ho : outcome job with
        | invoked => simp [trigger_ci, trigger_job, ho, hrest]
        | unknownJob => simp [trigger_ci, trigger_job, ho, hrest]
        | failure => simp [trigger_ci, trigger_job, ho]

/-- C3 witness: two jobs that both hit `UnknownJob` are rescanned and both
counted as triggered; the mixed failure case raises the systemic error. -/
theorem trigger_ci_amended_witness :
    trigger_ci (fun _ => JobInvokeOutcome.unknownJob) ["clang", "edge"]
      = .ok ["clang", "edge"] ∧
    trigger_ci ciOutcomeOneFailing ["clang", "edge"]
      = .error "Jenkins unable to trigger" :=
  ⟨(trigger_ci_amended (fun _ => JobInvokeOutcome.unknownJob) ["clang", "edge"]).1 (by decide),
   (trigger_ci_amended ciOutcomeOneFailing ["clang", "edge"]).2 (by decide)⟩

/-- C5 counterexample: the Label Bot has no self-trigger guard.  A
well-formed `add` command whose comment author is the Label Bot account
itself is parsed and executed: the flow fetches the repository labels and
issues the add request instead of terminating silently at the extractor
stage. -/
theorem label_bot_processes_own_comment :
    labelSelfPayload.comment_author = "mxnet-label-bot" ∧
    label_parse_webhook_data ["bug"] true eventHeaders (fun _ => some labelSelfPayload) "b"
      = .ok ([.fetchLabels, .addLabels 1 ["bug"]], "Added labels successfully") := by decide

/-- C5 amended: only the CI Bot guards against its own comments — after
the envelope is unwrapped and the event filters pass, a payload whose
comment author equals the bot identity makes `CIBot.parse_webhook_data`
return silently with no effect and no exception, whatever the comment body
contains; the Label Bot flow, by contrast, never reads the comment author
at all, so its behaviour is identical for every author, including its own
account. -/
theorem self_trigger_guard_amended :
    (∀ (cfg : CIBotCfg) (headers : List (String × String)) (rawBody ev : String) (p : Payload),
      headers.lookup "X-GitHub-Event" = some ev →
      secure_webhook cfg.hmacSha1 cfg.webhook_secret headers rawBody = .ok true →
      cfg.parseJson rawBody = some p →
      ¬(ev = "check_suite" ∨ ev = "check_run" ∨ ev = "status") →
      p.action ≠ some "deleted" →
      p.comment_author = cfg.bot_user →
      ci_parse_webhook_data cfg headers rawBody = ([], none)) ∧
    (∀ (all_labels : List String) (httpOk : Bool) (headers : List (String × String))
        (rawBody author : String) (p : Payload),
      label_parse_webhook_data all_labels httpOk headers
          (fun _ => some { p with comment_author := author }) rawBody
        = label_parse_webhook_data all_labels httpOk headers (fun _ => some p) rawBody) := by
  constructor
  · intro cfg headers rawBody ev p h1 h2 h3 h4 h5 h6
    unfold ci_parse_webhook_data
    rw [h1, h2, h3]
    simp only [if_neg h4, if_neg h5, if_pos h6]
    simp
  · intro all_labels httpOk headers rawBody author p
    rfl

/-- C5 amended witness: the CI Bot configuration whose payload author is
its own identity yields no effect and no exception. -/
theorem self_trigger_guard_amended_witness :
    ci_parse_webhook_data ciSelfCfg signedHeaders "body" = ([], none) :=
  self_trigger_guard_amended.1 ciSelfCfg signedHeaders "body" "issue_comment"
    { action := some "created", comment_body := "@mxnet-ci-bot run ci [sanity]",
      comment_author := "mxnet-ci-bot", issue_number := 3, issue_author := "alice" }
    rfl (by decide) rfl (by decide) (by decide) rfl

/-- C7 counterexample: the Label Bot does not post a help comment on an
unrecognized action.  For a comment mentioning the bot with the action
token `foo`, the only side effect is the label fetch — there is no
`postedComment` effect — and the help text is merely the returned handler
string. -/
theorem label_bot_silent_on_unrecognized_action :
    pyContains labelFooPayload.comment_body "@mxnet-label-bot" = true ∧
    label_parse_webhook_data ["bug"] true eventHeaders (fun _ => some labelFooPayload) "b"
      = .ok ([.fetchLabels], "Unrecognized action format for the mxnet-label-bot") := by decide

/-- C7 amended: only the CI Bot delivers the unrecognized-action help
message to the issue thread — it posts the syntax-examples comment and
then raises — while the Label Bot returns the string
`Unrecognized action format for the mxnet-label-bot` as its handler result
without posting any comment. -/
theorem unrecognized_action_reporting_amended :
    (∀ (cfg : CIBotCfg) (headers : List (String × String)) (rawBody : String) (p : Payload),
      headers.lookup "X-GitHub-Event" = some "issue_comment" →
      secure_webhook cfg.hmacSha1 cfg.webhook_secret headers rawBody = .ok true →
      cfg.parseJson rawBody = some p →
      p.action ≠ some "deleted" →
      p.comment_author ≠ cfg.bot_user →
      pyContains (pyLower p.comment_body) ("@" ++ cfg.bot_user) = true →
      ciActionOf cfg.bot_user p.comment_body ≠ "run ci" →
      ci_parse_webhook_data cfg headers rawBody
        = ([.createComment p.issue_number .undefinedAction], some "Undefined action by user")) ∧
    (∀ (all_labels : List String) (httpOk : Bool) (headers : List (String × String))
        (parseJson : String → Option Payload) (rawBody : String) (p : Payload) (a : String),
      headers.lookup "X-GitHub-Event" = some "issue_comment" →
      parseJson rawBody = some p →
      pyContains p.comment_body "@mxnet-label-bot" = true →
      label_action_of_body p.comment_body = some a →
      a ≠ "add" → a ≠ "remove" → a ≠ "update" →
      label_parse_webhook_data all_labels httpOk headers parseJson rawBody
        = .ok ([.fetchLabels], "Unrecognized action format for the mxnet-label-bot")) := by
  constructor
  · intro cfg headers rawBody p h1 h2 h3 h5 h6 h7 h8
    unfold ci_parse_webhook_data
    rw [h1, h2, h3]
    simp only [if_neg h5, if_neg h6, if_pos h7, if_pos h8]
    simp
  · intro all_labels httpOk headers parseJson rawBody p a h1 h2 h3 h4 ha hr hu
    unfold label_parse_webhook_data
    rw [h1, h2]
    simp only [if_pos rfl, if_pos h3, tokenize_isEmpty_false, if_false, h4]
    unfold label_action
    rw [if_neg ha, if_neg hr, if_neg hu]
    simp

/-- C7 amended witness: the CI Bot posts the help comment and raises on
the unsupported action `run`; the Label Bot returns the unrecognized
string with no posted comment on the unrecognized action `foo`. -/
theorem unrecognized_action_reporting_amended_witness :
    ci_parse_webhook_data ciRunCfg signedHeaders "body"
      = ([.createComment 5 .undefinedAction], some "Undefined action by user") ∧
    label_parse_webhook_data ["bug"] true eventHeaders (fun _ => some labelFooPayload) "b"
      = .ok ([.fetchLabels], "Unrecognized action format for the mxnet-label-bot") :=
  ⟨unrecognized_action_reporting_amended.1 ciRunCfg signedHeaders "body" ciRunPayload
    rfl (by decide) rfl (by decide) (by decide) (by decide) (by decide),
   unrecognized_action_reporting_amended.2 ["bug"] true eventHeaders
    (fun _ => some labelFooPayload) "b" labelFooPayload "foo"
    rfl rfl (by decide) (by decide) (by decide) (by decide) (by decide)⟩

/-- C10 counterexample: in the body `x add @mxnet-label-bot add [bug]`
the mention is the third whitespace-separated token (the first is `x`),
the token following the mention is `add`, and the extracted action — the
second token of the whole body — is also `add`: the extracted action here
EQUALS the token following the mention, refuting the universally
quantified `is not` of the claim. -/
theorem label_action_not_after_mention_refuted :
    (pySplitChar ' ' tangledBody).get? 0 = some "x" ∧
    (pySplitChar ' ' tangledBody).get? 2 = some "@mxnet-label-bot" ∧
    (pySplitChar ' ' tangledBody).get? 3 = some "add" ∧
    label_action_of_body tangledBody = some "add" := by decide

/-- C10 amended: the Label Bot always dispatches on the second
whitespace-separated token of the entire comment body, wherever the
mention occurs, so the dispatched action can differ from the token the
user wrote after the mention but need not; in the example
`Please @mxnet-label-bot add [bug]` the extracted action is
`@mxnet-label-bot`, not `add`, and the command is dispatched as
unrecognized. -/
theorem label_action_second_token :
    (∀ (all_labels : List String) (httpOk : Bool) (headers : List (String × String))
        (parseJson : String → Option Payload) (rawBody : String) (p : Payload) (a : String),
      headers.lookup "X-GitHub-Event" = some "issue_comment" →
      parseJson rawBody = some p →
      pyContains p.comment_body "@mxnet-label-bot" = true →
      label_action_of_body p.comment_body = some a →
      label_parse_webhook_data all_labels httpOk headers parseJson rawBody
        = match label_action all_labels httpOk a p.issue_number (tokenize p.comment_body) with
          | .error e => .error e
          | .ok er => .ok (.fetchLabels :: er.1, er.2)) ∧
    (label_action_of_body labelPolitePayload.comment_body = some "@mxnet-label-bot" ∧
     label_parse_webhook_data ["bug"] true eventHeaders (fun _ => some labelPolitePayload) "b"
       = .ok ([.fetchLabels], "Unrecognized action format for the mxnet-label-bot")) := by
  constructor
  · intro all_labels httpOk headers parseJson rawBody p a h1 h2 h3 h4
    unfold label_parse_webhook_data
    rw [h1, h2]
    simp only [if_pos rfl, if_pos h3, tokenize_isEmpty_false, h4]
    simp
  · exact ⟨by decide, by decide⟩

/-- C10 amended witness: on the polite example, the flow result equals
the dispatch of `label_action` on the second body token
`@mxnet-label-bot`. -/
theorem label_action_second_token_witness :
    label_parse_webhook_data ["bug"] true eventHeaders (fun _ => some labelPolitePayload) "b"
      = match label_action ["bug"] true "@mxnet-label-bot" 4
            (tokenize labelPolitePayload.comment_body) with
        | .error e => .error e
        | .ok er => .ok (.fetchLabels :: er.1, er.2) :=
  label_action_second_token.1 ["bug"] true eventHeaders (fun _ => some labelPolitePayload) "b"
    labelPolitePayload "@mxnet-label-bot" rfl rfl (by decide) (by decide)
